import Mathlib

/-!
Shallow embedding of the imdb-api core (src/imdb.ts): response
normalization (Movie / Episode / TVShow / Game / SearchResult builders),
request orchestration (Client.get, Client.search, the module-level get and
search wrappers), pagination chaining (SearchResults.next) and the
multi-season episode aggregation (TVShow.episodes).

JavaScript values are modelled explicitly: a possibly-undefined field is an
Option, a possibly-NaN number parse is an Option Int, dates are opaque
integers produced by an abstract date parser, and promise-flavoured control
flow is a sum type distinguishing synchronous throws, rejected promises and
transport invocations.
-/

/- ### JavaScript primitive models -/

/-- Whitespace characters skipped by JS parseInt before reading digits. -/
def isJsSpace (c : Char) : Bool :=
  c = ' ' || c = '\t' || c = '\n' || c = '\r' || c = '\x0b' || c = '\x0c'

/-- Numeric value of a list of ASCII digits, most significant first. -/
def digitsVal (l : List Char) : Nat :=
  l.foldl (fun acc c => acc * 10 + (c.toNat - '0'.toNat)) 0

/-- JS parseInt(s, 10) on a character list: skip leading whitespace, read an
optional sign, then the longest prefix of decimal digits. `none` models NaN
(no digit found). -/
def jsParseIntChars (l : List Char) : Option Int :=
  let l1 := l.dropWhile isJsSpace
  let p : Int × List Char :=
    match l1 with
    | '-' :: t => (-1, t)
    | '+' :: t => (1, t)
    | _ => (1, l1)
  let ds := p.2.takeWhile Char.isDigit
  if ds.isEmpty then none else some (p.1 * (digitsVal ds : Int))

/-- JS parseInt(s, 10). `none` models NaN. -/
def jsParseInt (s : String) : Option Int := jsParseIntChars s.data

/-- One position of the Year string matches the year-range pattern of
imdb.ts line 260: four digits followed by a hyphen or an en-dash. The
pattern's optional trailing four digits never change whether it matches. -/
def yearRangeAt : List Char → Bool
  | d1 :: d2 :: d3 :: d4 :: sep :: _ =>
    d1.isDigit && d2.isDigit && d3.isDigit && d4.isDigit &&
      (sep = '-' || sep = '–')
  | _ => false

/-- Unanchored regex search over the character list. -/
def containsYearRangeChars : List Char → Bool
  | [] => false
  | c :: rest => yearRangeAt (c :: rest) || containsYearRangeChars rest

/-- JS `s.match` of the year-range pattern succeeding (unanchored search). -/
def containsYearRange (s : String) : Bool := containsYearRangeChars s.data

/-- JS String.prototype.split with a one-character separator. -/
def splitOnChar (sep : Char) : List Char → List (List Char)
  | [] => [[]]
  | c :: rest =>
    if c = sep then [] :: splitOnChar sep rest
    else
      match splitOnChar sep rest with
      | [] => [[c]]
      | h :: t => (c :: h) :: t

/-- JS string conversion of a possibly-undefined string value, as it would
appear interpolated into a template string or a query parameter. -/
def jsStr : Option String → String
  | some s => s
  | none => "undefined"

/-- JS truthiness of a possibly-undefined string (undefined and the empty
string are falsy). -/
def jsTruthy : Option String → Bool
  | none => false
  | some s => s != ""

/-- JS truthiness of a possibly-undefined boolean. -/
def jsTruthyBool : Option Bool → Bool
  | none => false
  | some b => b

/-- Errors thrown by the embedded code: TypeError from field parsing, and
ImdbError (the library's DomainError, imdb.ts line 553). -/
inductive JsErr where
  | typeError (message : String)
  | imdbError (message : String)
deriving DecidableEq

/- ### Upstream payloads -/

/-- A JS date value; the date grammar itself is outside the model, so the
parser `String → Option JsDate` is a parameter of the builders (`none`
models an invalid date, i.e. NaN from getTime). -/
abbrev JsDate := Int

/-- The fields of an upstream get-response payload that this development
models; `none` means the key is absent from the upstream JSON object.
Covers the OmdbGetResponse / OmdbEpisode / OmdbTvshow keys the claims
touch. The source key Type is spelled typeKey here because Type is a Lean
keyword. -/
structure OmdbGetResponse where
  Title : Option String := none
  Year : Option String := none
  Released : Option String := none
  DVD : Option String := none
  typeKey : Option String := none
  imdbID : Option String := none
  totalSeasons : Option String := none
  Season : Option String := none
  Episode : Option String := none
deriving DecidableEq

/- ### Domain records -/

/-- The Movie record fields this development models (imdb.ts lines
156-300). An Option field models one the constructor may leave undefined.
`yearData` is the protected `_yearData`; `type` mirrors `this.type`. -/
structure Movie where
  title : Option String
  name : Option String
  yearData : Option String
  year : Option Int
  released : Option JsDate
  dvd : Option JsDate
  type : Option String
  imdbid : Option String
  series : Bool
  imdburl : String
deriving DecidableEq

/-- The Year branch of the Movie constructor (imdb.ts lines 257-266):
always retain the raw string in `_yearData`; when it does not contain a
year range, parseInt it, throwing TypeError "invalid year" on NaN. Returns
(yearData, year). -/
def yearFields : Option String → Except JsErr (Option String × Option Int)
  | none => .ok (none, none)
  | some y =>
    if containsYearRange y then .ok (some y, none)
    else
      match jsParseInt y with
      | none => .error (.typeError "invalid year")
      | some v => .ok (some y, some v)

/-- The Movie constructor (imdb.ts lines 253-299): per-key normalization of
the payload, then the derived fields `name := title`,
`series := type !== "movie"` and the imdb URL. `pd` is the abstract JS date
parser used for the Released and DVD keys (parse failure leaves the domain
field undefined). -/
def Movie.construct (pd : String → Option JsDate) (obj : OmdbGetResponse) :
    Except JsErr Movie :=
  match yearFields obj.Year with
  | .error e => .error e
  | .ok yf =>
    .ok { title := obj.Title
          name := obj.Title
          yearData := yf.1
          year := yf.2
          released := obj.Released.bind pd
          dvd := obj.DVD.bind pd
          type := obj.typeKey
          imdbid := obj.imdbID
          series := obj.typeKey != some "movie"
          imdburl := "https://www.imdb.com/title/" ++ jsStr obj.imdbID }

/-- The Episode record (imdb.ts lines 306-344): a Movie plus season and
episode numbers. `season` is `none` when the explicitly passed season
number was NaN; `episode` is `none` when the payload had no Episode key. -/
structure Episode extends Movie where
  season : Option Int
  episode : Option Int
deriving DecidableEq

/-- Season handling of the Episode constructor (imdb.ts lines 328-335):
an explicitly passed season argument (outer `some`, possibly NaN = inner
`none`) is stored as-is; otherwise the payload's Season key is parseInt-ed
and NaN throws TypeError "invalid season". -/
def seasonField (obj : OmdbGetResponse) :
    Option (Option Int) → Except JsErr (Option Int)
  | some v => .ok v
  | none =>
    match obj.Season.bind jsParseInt with
    | none => .error (.typeError "invalid season")
    | some v => .ok (some v)

/-- Episode-number handling of the Episode constructor (imdb.ts lines
337-342): parsed only when the payload has an Episode key; NaN throws
TypeError "invalid episode". -/
def episodeField (obj : OmdbGetResponse) : Except JsErr (Option Int) :=
  match obj.Episode with
  | none => .ok none
  | some es =>
    match jsParseInt es with
    | none => .error (.typeError "invalid episode")
    | some v => .ok (some v)

/-- The Episode constructor (imdb.ts lines 325-343): super(obj), then the
season and episode fields. -/
def Episode.construct (pd : String → Option JsDate) (obj : OmdbGetResponse)
    (seasonArg : Option (Option Int)) : Except JsErr Episode :=
  match Movie.construct pd obj with
  | .error e => .error e
  | .ok m =>
    match seasonField obj seasonArg with
    | .error e => .error e
    | .ok s =>
      match episodeField obj with
      | .error e => .error e
      | .ok ep => .ok { toMovie := m, season := s, episode := ep }

/-- MovieOpts (imdb.ts lines 27-39) modelled at the JS object level: the
outer Option is whether the object has the own property at all
(hasOwnProperty), the inner Option is whether its value is defined. -/
structure MovieOpts where
  apiKeyProp : Option (Option String) := none
  timeoutProp : Option (Option Int) := none
deriving DecidableEq

/-- The apiKey value read off a MovieOpts (undefined when the property is
missing or set to undefined). -/
def apiKeyVal (o : MovieOpts) : Option String := o.apiKeyProp.bind id

/-- The TVShow record (imdb.ts lines 351-387): a Movie plus the year span,
the season count, the stored options and the private episode cache
`_episodes` (initially empty). -/
structure TVShow extends Movie where
  start_year : Option Int
  end_year : Option Int
  totalseasons : Option Int
  opts : MovieOpts
  episodesCache : List Episode
deriving DecidableEq

/-- The TVShow constructor (imdb.ts lines 380-387): super(obj), then split
`_yearData` on a hyphen; `start_year` is parseInt of the part before it,
`end_year` is parseInt of the part after it unless that is falsy (NaN,
absent, or zero), `totalseasons` is parseInt of the payload key. A payload
without a Year key leaves `_yearData` undefined and `.split` throws a
TypeError. -/
def TVShow.construct (pd : String → Option JsDate) (obj : OmdbGetResponse)
    (opts : MovieOpts) : Except JsErr TVShow :=
  match Movie.construct pd obj with
  | .error e => .error e
  | .ok m =>
    match m.yearData with
    | none => .error (.typeError "cannot read properties of undefined")
    | some yd =>
      .ok { toMovie := m
            start_year := jsParseIntChars ((splitOnChar '-' yd.data).headD [])
            end_year :=
              match (splitOnChar '-' yd.data).get? 1 with
              | none => none
              | some q =>
                match jsParseIntChars q with
                | none => none
                | some v => if v = 0 then none else some v
            totalseasons := obj.totalSeasons.bind jsParseInt
            opts := opts
            episodesCache := [] }

/-- The Game class (imdb.ts line 448) is an empty subclass of Movie; its
construction is exactly the Movie construction. -/
def Game.construct (pd : String → Option JsDate) (obj : OmdbGetResponse) :
    Except JsErr Movie :=
  Movie.construct pd obj

/- ### Episode aggregation (TVShow.episodes, imdb.ts lines 394-445) -/

/-- A season-fetch payload, already delivered by the transport. Modelled
from the spec: the repository's interfaces.ts (isError and the OmdbSeason
shape) is not under src, so classification follows the spec: an
error-classified payload carries the upstream Error message, a season
payload carries a Season string and an Episodes mapping keyed by ordinal
(here: the list of its entries in listing order). -/
inductive SeasonPayload where
  | err (message : String)
  | season (seasonStr : String) (episodeObjs : List OmdbGetResponse)
deriving DecidableEq

/-- Sequential Except-valued map, mirroring the JS loop that pushes built
episodes and stops at the first thrown error. -/
def mapExcept (f : α → Except JsErr β) : List α → Except JsErr (List β)
  | [] => .ok []
  | x :: xs =>
    match f x with
    | .error e => .error e
    | .ok y =>
      match mapExcept f xs with
      | .error e => .error e
      | .ok ys => .ok (y :: ys)

/-- Processing of one season payload inside the Promise.all continuation
(imdb.ts lines 427-436): an error-classified payload throws an ImdbError
with its message; otherwise the payload's Season key is parseInt-ed and
each episode entry is built with that (possibly NaN) season number passed
explicitly. -/
def buildSeasonEpisodes (pd : String → Option JsDate) :
    SeasonPayload → Except JsErr (List Episode)
  | .err msg => .error (.imdbError msg)
  | .season seasonStr eps =>
    mapExcept (fun ep => Episode.construct pd ep (some (jsParseInt seasonStr))) eps

/-- The whole Promise.all continuation over the season payloads in request
order: first failure wins, successes concatenate in season order. -/
def aggregateSeasons (pd : String → Option JsDate) :
    List SeasonPayload → Except JsErr (List Episode)
  | [] => .ok []
  | d :: rest =>
    match buildSeasonEpisodes pd d with
    | .error e => .error e
    | .ok eps =>
      match aggregateSeasons pd rest with
      | .error e => .error e
      | .ok more => .ok (eps ++ more)

/-- The loop bound of imdb.ts line 402 (`for i = 1; i <= totalseasons`):
a NaN or negative season count runs zero iterations. -/
def seasonCount (s : TVShow) : Nat :=
  match s.totalseasons with
  | none => 0
  | some v => v.toNat

/-- Observable outcome of one TVShow.episodes() call: the settled promise
value, the `_episodes` cache after the call, and the season numbers for
which a transport request was issued. -/
structure EpisodesOutcome where
  result : Except JsErr (List Episode)
  cache : List Episode
  requestedSeasons : List Nat

/-- TVShow.episodes (imdb.ts lines 394-445): if the cached `_episodes` list
is non-empty it is returned with no transport call; otherwise one request
per season 1..totalseasons is issued (`fetch` maps the season number to the
payload the transport delivered) and the joined results are cached. On a
failed aggregation the cache is left as it was. -/
def TVShow.episodes (pd : String → Option JsDate) (s : TVShow)
    (fetch : Nat → SeasonPayload) : EpisodesOutcome :=
  if s.episodesCache.length ≠ 0 then
    { result := .ok s.episodesCache
      cache := s.episodesCache
      requestedSeasons := [] }
  else
    let seasons := List.range' 1 (seasonCount s)
    match aggregateSeasons pd (seasons.map fetch) with
    | .error e =>
      { result := .error e, cache := s.episodesCache, requestedSeasons := seasons }
    | .ok eps =>
      { result := .ok eps, cache := eps, requestedSeasons := seasons }

/-- The episode list a season payload contributes on success ([] on
failure); used to state how the aggregate decomposes per season. -/
def okEpisodes (pd : String → Option JsDate) (p : SeasonPayload) : List Episode :=
  match buildSeasonEpisodes pd p with
  | .ok l => l
  | .error _ => []

/- ### Client and module-level wrappers (imdb.ts lines 553-760) -/

/-- MovieRequest (imdb.ts lines 52-75). -/
structure MovieRequest where
  name : Option String := none
  id : Option String := none
  year : Option Int := none
  short_plot : Option Bool := none
deriving DecidableEq

/-- SearchRequest (imdb.ts lines 86-102); reqtype is kept as its string. -/
structure SearchRequest where
  name : String
  reqtype : Option String := none
  year : Option Int := none
deriving DecidableEq

/-- The Client (imdb.ts line 617): it owns the baseline options. -/
structure Client where
  opts : MovieOpts
deriving DecidableEq

/-- The Client constructor (imdb.ts lines 631-636): throws an ImdbError
when opts has no own apiKey property. -/
def Client.construct (opts : MovieOpts) : Except JsErr Client :=
  match opts.apiKeyProp with
  | none => .error (.imdbError "Missing api key in opts")
  | some _ => .ok { opts := opts }

/-- mergeOpts (imdb.ts lines 753-759): shallow object spread, the
override's own properties win key by key. -/
def mergeOpts (base : MovieOpts) : Option MovieOpts → MovieOpts
  | none => base
  | some o =>
    { apiKeyProp := match o.apiKeyProp with
        | some v => some v
        | none => base.apiKeyProp
      timeoutProp := match o.timeoutProp with
        | some v => some v
        | none => base.timeoutProp }

/-- Pre-transport outcome of a get call: a synchronously thrown error, a
rejected promise returned before any transport call, or the transport
being invoked with the built query parameters. -/
inductive GetOutcome where
  | thrown (e : JsErr)
  | rejected (e : JsErr)
  | transport (qs : List (String × String))
deriving DecidableEq

/-- The query list Client.get builds before choosing title or id (imdb.ts
lines 649-657): apikey, plot flag, r=json, optional year. -/
def Client.getQuery (c : Client) (req : MovieRequest)
    (override : Option MovieOpts) : List (String × String) :=
  let opts := mergeOpts c.opts override
  [("apikey", jsStr (apiKeyVal opts)),
   ("plot", if jsTruthyBool req.short_plot then "short" else "full"),
   ("r", "json")] ++
  (match req.year with
   | some y => [("y", toString y)]
   | none => [])

/-- Client.get up to the transport call (imdb.ts lines 646-679): merge
options, build the query list, then require a truthy name or else a truthy
id; with neither, return a rejected promise naming the missing fields
without invoking the transport. -/
def Client.get (c : Client) (req : MovieRequest) (override : Option MovieOpts) :
    GetOutcome :=
  let qs := Client.getQuery c req override
  if jsTruthy req.name then .transport (qs ++ [("t", jsStr req.name)])
  else if jsTruthy req.id then .transport (qs ++ [("i", jsStr req.id)])
  else .rejected (.imdbError "Missing one of req.id or req.name")

/-- The module-level get (imdb.ts lines 567-573): a transient Client in a
try block, a constructor throw is caught and returned as a rejected
promise. -/
def moduleGet (req : MovieRequest) (opts : MovieOpts) : GetOutcome :=
  match Client.construct opts with
  | .error e => .rejected e
  | .ok c => Client.get c req none

/-- reqtoqueryobj (imdb.ts lines 107-128): the search query parameters in
insertion order. -/
def reqtoqueryobj (req : SearchRequest) (apikey : String) (page : Int) :
    List (String × String) :=
  [("apikey", apikey), ("s", req.name), ("page", toString page), ("r", "json")] ++
  (match req.year with
   | some y => [("y", toString y)]
   | none => []) ++
  (match req.reqtype with
   | some t => [("type", t)]
   | none => [])

/-- Pre-transport outcome of a search call: a synchronously thrown error,
or the transport invoked with the query parameters; `page`, `opts` and
`req` are the values the success continuation will hand to the
SearchResults constructor. -/
inductive SearchOutcome where
  | thrown (e : JsErr)
  | issued (qs : List (String × String)) (page : Int) (opts : MovieOpts)
      (req : SearchRequest)
deriving DecidableEq

/-- Client.search up to the transport call (imdb.ts lines 714-737): merge
options, default an omitted page to 1, build the query and invoke the
transport. -/
def Client.search (c : Client) (req : SearchRequest) (pageArg : Option Int)
    (override : Option MovieOpts) : SearchOutcome :=
  let opts := mergeOpts c.opts override
  let page := match pageArg with
    | none => 1
    | some p => p
  .issued (reqtoqueryobj req (jsStr (apiKeyVal opts)) page) page opts req

/-- The module-level search (imdb.ts lines 584-590): no try block, so a
Client constructor throw propagates synchronously. -/
def moduleSearch (req : SearchRequest) (opts : MovieOpts) (pageArg : Option Int) :
    SearchOutcome :=
  match Client.construct opts with
  | .error e => .thrown e
  | .ok c => Client.search c req pageArg none

/- ### Search results and pagination (imdb.ts lines 454-551) -/

/-- The fields of one upstream search entry that this development models. -/
structure OmdbSearchResult where
  Title : Option String := none
  Year : Option String := none
  imdbID : Option String := none
  typeKey : Option String := none
  Poster : Option String := none
deriving DecidableEq

/-- One SearchResult (imdb.ts lines 454-484): keys copied lower-cased, the
Year parseInt-ed, then `name := title`. -/
structure SearchResult where
  title : Option String
  name : Option String
  year : Option Int
  imdbid : Option String
  type : Option String
  poster : Option String
deriving DecidableEq

/-- The SearchResult constructor (imdb.ts lines 473-483). -/
def SearchResult.construct (o : OmdbSearchResult) : SearchResult :=
  { title := o.Title
    name := o.Title
    year := o.Year.bind jsParseInt
    imdbid := o.imdbID
    type := o.typeKey
    poster := o.Poster }

/-- A search payload as classified after transport: error-classified, or a
result page carrying the Search list and the raw totalResults string.
Modelled from the spec for the error side (isError lives in the missing
interfaces.ts): an error payload carries a falsy Response flag and an
Error message. -/
inductive SearchPayload where
  | err (message : String)
  | page (results : List OmdbSearchResult) (totalResults : Option String)
deriving DecidableEq

/-- A SearchResults page (imdb.ts lines 491-551): the built results, the
parsed total, and the page/options/request retained for chaining. -/
structure SearchResults where
  results : List SearchResult
  totalresults : Option Int
  page : Int
  opts : MovieOpts
  req : SearchRequest
deriving DecidableEq

/-- The SearchResults constructor (imdb.ts lines 520-541). -/
def SearchResults.construct (results : List OmdbSearchResult)
    (totalResults : Option String) (page : Int) (opts : MovieOpts)
    (req : SearchRequest) : SearchResults :=
  { results := results.map SearchResult.construct
    totalresults := totalResults.bind jsParseInt
    page := page
    opts := opts
    req := req }

/-- The success continuation of Client.search (imdb.ts lines 739-745): an
error-classified payload rejects with the upstream message annotated with
the searched name; otherwise the SearchResults page is built from the
payload and the retained page/options/request. -/
def searchThen (data : SearchPayload) (page : Int) (opts : MovieOpts)
    (req : SearchRequest) : Except JsErr SearchResults :=
  match data with
  | .err msg => .error (.imdbError (msg ++ ": " ++ req.name))
  | .page results tot => .ok (SearchResults.construct results tot page opts req)

/-- SearchResults.next (imdb.ts lines 548-550): re-issue the module-level
search with the stored request and options and the stored page plus one. -/
def SearchResults.next (r : SearchResults) : SearchOutcome :=
  moduleSearch r.req r.opts (some (r.page + 1))


/- ### Concrete instances used by witnesses and counterexamples -/

/-- A date parser rejecting every string; the settled claims are
independent of the date grammar. -/
def pd0 : String → Option JsDate := fun _ => none

/-- A date parser accepting every string as epoch 0. -/
def pdAll : String → Option JsDate := fun _ => some 0

/-- Options with a defined api key. -/
def opts0 : MovieOpts := { apiKeyProp := some (some "k") }

/-- An options object with no apiKey own property. -/
def optsNoKey : MovieOpts := { apiKeyProp := none }

/-- A client built from opts0. -/
def client0 : Client := { opts := opts0 }

/-- A series payload whose Year is the hyphen range 2015-2019. -/
def objSeries : OmdbGetResponse :=
  { Year := some "2015-2019", typeKey := some "series",
    totalSeasons := some "2" }

/-- The TVShow the embedded constructor builds from objSeries. -/
def tvshow1 : TVShow :=
  { title := none, name := none, yearData := some "2015-2019", year := none,
    released := none, dvd := none, type := some "series", imdbid := none,
    series := true, imdburl := "https://www.imdb.com/title/undefined",
    start_year := some 2015, end_year := some 2019, totalseasons := some 2,
    opts := opts0, episodesCache := [] }

/-- A series payload whose Year range uses an en-dash. -/
def objEnDash : OmdbGetResponse :=
  { Year := some "2015–2019", typeKey := some "series",
    totalSeasons := some "1" }

/-- An episode payload. -/
def epObj1 : OmdbGetResponse :=
  { Title := some "Pilot", Year := some "2015", typeKey := some "episode",
    Episode := some "1" }

/-- The movie record built from epObj1. -/
def movie1 : Movie :=
  { title := some "Pilot", name := some "Pilot", yearData := some "2015",
    year := some 2015, released := none, dvd := none,
    type := some "episode", imdbid := none, series := true,
    imdburl := "https://www.imdb.com/title/undefined" }

/-- A transport whose every season payload reports Season "5". -/
def fetch5 : Nat → SeasonPayload := fun _ => .season "5" [epObj1]

/-- The episode built from epObj1 with season 5 passed explicitly. -/
def ep5 : Episode :=
  { title := some "Pilot", name := some "Pilot", yearData := some "2015",
    year := some 2015, released := none, dvd := none,
    type := some "episode", imdbid := none, series := true,
    imdburl := "https://www.imdb.com/title/undefined",
    season := some 5, episode := some 1 }

/-- A transport error-classified on season 2 only. -/
def fetchErr : Nat → SeasonPayload :=
  fun n => if n = 2 then .err "boom" else .season "1" []

/-- A transport whose every season lists zero episodes. -/
def fetchEmpty : Nat → SeasonPayload := fun _ => .season "1" []

/-- tvshow1 with a previously populated episode cache. -/
def tvshowCached : TVShow := { tvshow1 with episodesCache := [ep5] }

/-- A concrete search request. -/
def searchReq0 : SearchRequest := { name := "Toxic Avenger" }

/-- The page built from an empty result list with totalResults "25". -/
def searchResults0 : SearchResults :=
  SearchResults.construct [] (some "25") 1 opts0 searchReq0

/-- Whether a construction succeeded (the record was built rather than an
error thrown). -/
def exceptOk : Except JsErr α → Bool
  | .ok _ => true
  | .error _ => false

/-- A payload with malformed Released and DVD strings. -/
def objDates : OmdbGetResponse :=
  { Year := some "2015", Released := some "garbage",
    DVD := some "also garbage" }

/-- The movie built from objDates under the all-rejecting date parser. -/
def movieDates0 : Movie :=
  { title := none, name := none, yearData := some "2015", year := some 2015,
    released := none, dvd := none, type := none, imdbid := none,
    series := true, imdburl := "https://www.imdb.com/title/undefined" }

/- ### Helper lemmas -/

/-- On success the Movie constructor retains the raw Year string. -/
theorem yearFields_fst {oy : Option String} {yf : Option String × Option Int}
    (h : yearFields oy = .ok yf) : yf.1 = oy := by
  cases oy with
  | none =>
    simp only [yearFields] at h
    injection h with h
    subst h
    rfl
  | some y =>
    simp only [yearFields] at h
    by_cases hr : containsYearRange y = true
    · rw [if_pos hr] at h
      injection h with h
      subst h
      rfl
    · rw [if_neg hr] at h
      cases hp : jsParseInt y with
      | none => rw [hp] at h; exact Except.noConfusion h
      | some v =>
        rw [hp] at h
        injection h with h
        subst h
        rfl

/-- Unfolding of a successful Movie construction: every field is what the
constructor assigned. -/
theorem movie_construct_ok {pd : String → Option JsDate}
    {obj : OmdbGetResponse} {m : Movie}
    (h : Movie.construct pd obj = .ok m) :
    ∃ yf, yearFields obj.Year = .ok yf ∧
      m = { title := obj.Title, name := obj.Title, yearData := yf.1,
            year := yf.2, released := obj.Released.bind pd,
            dvd := obj.DVD.bind pd, type := obj.typeKey,
            imdbid := obj.imdbID, series := obj.typeKey != some "movie",
            imdburl := "https://www.imdb.com/title/" ++ jsStr obj.imdbID } := by
  unfold Movie.construct at h
  cases hy : yearFields obj.Year with
  | error e => rw [hy] at h; exact Except.noConfusion h
  | ok yf =>
    rw [hy] at h
    injection h with h
    exact ⟨yf, rfl, h.symm⟩

/-- A successful Episode construction decomposes into its three stages. -/
theorem episode_construct_ok {pd : String → Option JsDate}
    {obj : OmdbGetResponse} {sa : Option (Option Int)} {e : Episode}
    (h : Episode.construct pd obj sa = .ok e) :
    Movie.construct pd obj = .ok e.toMovie ∧
    seasonField obj sa = .ok e.season ∧
    episodeField obj = .ok e.episode := by
  unfold Episode.construct at h
  cases hm : Movie.construct pd obj with
  | error err => rw [hm] at h; exact Except.noConfusion h
  | ok m =>
    rw [hm] at h
    cases hs : seasonField obj sa with
    | error err => rw [hs] at h; exact Except.noConfusion h
    | ok s =>
      rw [hs] at h
      cases he : episodeField obj with
      | error err => rw [he] at h; exact Except.noConfusion h
      | ok ep =>
        rw [he] at h
        injection h with h
        subst h
        exact ⟨rfl, rfl, rfl⟩

/-- An episode built with an explicitly passed season number stores exactly
that number. -/
theorem episode_construct_season {pd : String → Option JsDate}
    {obj : OmdbGetResponse} {v : Option Int} {e : Episode}
    (h : Episode.construct pd obj (some v) = .ok e) : e.season = v := by
  have hs := (episode_construct_ok h).2.1
  unfold seasonField at hs
  injection hs with hs
  exact hs.symm

/-- A successful TVShow construction decomposes into the Movie part and the
derived year-span/season fields. -/
theorem tvshow_construct_ok {pd : String → Option JsDate}
    {obj : OmdbGetResponse} {opts : MovieOpts} {t : TVShow}
    (h : TVShow.construct pd obj opts = .ok t) :
    Movie.construct pd obj = .ok t.toMovie ∧
    ∃ yd, t.yearData = some yd ∧
      t.start_year = jsParseIntChars ((splitOnChar '-' yd.data).headD []) ∧
      t.end_year = (match (splitOnChar '-' yd.data).get? 1 with
        | none => none
        | some q =>
          match jsParseIntChars q with
          | none => none
          | some v => if v = 0 then none else some v) ∧
      t.totalseasons = obj.totalSeasons.bind jsParseInt ∧
      t.episodesCache = [] := by
  unfold TVShow.construct at h
  split at h
  · exact Except.noConfusion h
  · rename_i m hm
    split at h
    · exact Except.noConfusion h
    · rename_i yd hyd
      injection h with h
      subst h
      exact ⟨hm, yd, hyd, rfl, rfl, rfl, rfl⟩

/-- Elements of a successful mapExcept all come from successful
applications of the mapped constructor. -/
theorem mapExcept_ok_mem {f : α → Except JsErr β} :
    ∀ {l : List α} {l' : List β}, mapExcept f l = .ok l' →
      ∀ y ∈ l', ∃ x ∈ l, f x = .ok y := by
  intro l
  induction l with
  | nil =>
    intro l' h y hy
    simp only [mapExcept] at h
    injection h with h
    subst h
    exact absurd hy (List.not_mem_nil y)
  | cons x xs ih =>
    intro l' h y hy
    simp only [mapExcept] at h
    cases hfx : f x with
    | error e => rw [hfx] at h; exact Except.noConfusion h
    | ok b =>
      rw [hfx] at h
      cases hrest : mapExcept f xs with
      | error e => rw [hrest] at h; exact Except.noConfusion h
      | ok bs =>
        rw [hrest] at h
        injection h with h
        subst h
        rcases List.mem_cons.mp hy with rfl | hy'
        · exact ⟨x, List.mem_cons_self x xs, hfx⟩
        · obtain ⟨x', hx', hfx'⟩ := ih hrest y hy'
          exact ⟨x', List.mem_cons_of_mem x hx', hfx'⟩

/-- Every episode built from a non-error season payload stores the integer
parse of that payload's Season string. -/
theorem buildSeasonEpisodes_season {pd : String → Option JsDate}
    {str : String} {objs : List OmdbGetResponse} {eps : List Episode}
    (h : buildSeasonEpisodes pd (.season str objs) = .ok eps) :
    ∀ e ∈ eps, e.season = jsParseInt str := by
  intro e he
  simp only [buildSeasonEpisodes] at h
  obtain ⟨obj, _, hobj⟩ := mapExcept_ok_mem h e he
  exact episode_construct_season hobj

/-- A successful aggregation is the join of the per-season successful
episode lists, in season order. -/
theorem aggregateSeasons_ok_join {pd : String → Option JsDate} :
    ∀ {ps : List SeasonPayload} {eps : List Episode},
      aggregateSeasons pd ps = .ok eps →
      eps = (ps.map (okEpisodes pd)).flatten := by
  intro ps
  induction ps with
  | nil =>
    intro eps h
    simp only [aggregateSeasons] at h
    injection h with h
    subst h
    rfl
  | cons d rest ih =>
    intro eps h
    simp only [aggregateSeasons] at h
    cases hd : buildSeasonEpisodes pd d with
    | error e => rw [hd] at h; exact Except.noConfusion h
    | ok l =>
      rw [hd] at h
      cases hr : aggregateSeasons pd rest with
      | error e => rw [hr] at h; exact Except.noConfusion h
      | ok more =>
        rw [hr] at h
        injection h with h
        subst h
        simp [okEpisodes, hd, ih hr]

/-- Aggregation stops with the first error-classified payload's message
when every earlier payload builds successfully. -/
theorem aggregateSeasons_first_err {pd : String → Option JsDate} :
    ∀ (ps1 : List SeasonPayload) (msg : String) (ps2 : List SeasonPayload),
      (∀ q ∈ ps1, ∃ l, buildSeasonEpisodes pd q = .ok l) →
      aggregateSeasons pd (ps1 ++ .err msg :: ps2) =
        .error (.imdbError msg) := by
  intro ps1
  induction ps1 with
  | nil =>
    intro msg ps2 _
    simp [aggregateSeasons, buildSeasonEpisodes]
  | cons q rest ih =>
    intro msg ps2 hall
    obtain ⟨l, hl⟩ := hall q (List.mem_cons_self q rest)
    have hrest : ∀ q' ∈ rest, ∃ l', buildSeasonEpisodes pd q' = .ok l' :=
      fun q' hq' => hall q' (List.mem_cons_of_mem q hq')
    simp [aggregateSeasons, hl, ih msg ps2 hrest]

/-- Aggregation over the seasons map fails with the message of the first
error-classified season when all earlier seasons build successfully. -/
theorem aggregateSeasons_fetch_err {pd : String → Option JsDate}
    (fetch : Nat → SeasonPayload) :
    ∀ (n s k : Nat) (msg : String), s ≤ k → k < s + n →
      fetch k = .err msg →
      (∀ j, s ≤ j → j < k → ∃ l, buildSeasonEpisodes pd (fetch j) = .ok l) →
      aggregateSeasons pd ((List.range' s n).map fetch) =
        .error (.imdbError msg) := by
  intro n
  induction n with
  | zero => intro s k msg h1 h2 _ _; omega
  | succ n ih =>
    intro s k msg hsk hkn hfk hprev
    rw [List.range'_succ]
    by_cases hks : k = s
    · subst hks
      simp [aggregateSeasons, buildSeasonEpisodes, hfk]
    · have hlt : s < k := Nat.lt_of_le_of_ne hsk (fun e => hks e.symm)
      obtain ⟨l, hl⟩ := hprev s (Nat.le_refl s) hlt
      have hrec := ih (s + 1) k msg hlt (by omega) hfk
        (fun j hj1 hj2 => hprev j (by omega) hj2)
      simp [aggregateSeasons, hl, hrec]

/-- TVShow.episodes with an empty cache fans out over seasons
1..totalseasons and settles on the aggregation outcome. -/
theorem episodes_uncached {pd : String → Option JsDate} {s : TVShow}
    {fetch : Nat → SeasonPayload} (hc : s.episodesCache = []) :
    TVShow.episodes pd s fetch =
      (match aggregateSeasons pd
          ((List.range' 1 (seasonCount s)).map fetch) with
       | .error e =>
         { result := .error e, cache := s.episodesCache,
           requestedSeasons := List.range' 1 (seasonCount s) }
       | .ok eps =>
         { result := .ok eps, cache := eps,
           requestedSeasons := List.range' 1 (seasonCount s) }) := by
  unfold TVShow.episodes
  rw [hc]
  simp

/-- With an empty cache, a call fans out a request for every season
1..totalseasons no matter how the aggregation settles. -/
theorem episodes_requested_of_empty {pd : String → Option JsDate}
    {s : TVShow} {fetch : Nat → SeasonPayload} (hc : s.episodesCache = []) :
    (TVShow.episodes pd s fetch).requestedSeasons =
      List.range' 1 (seasonCount s) := by
  rw [episodes_uncached hc]
  cases aggregateSeasons pd ((List.range' 1 (seasonCount s)).map fetch) <;> rfl

/- ### Claim theorems -/

/-- C4: for every successfully constructed record of the Movie family
(Movie, Episode, TVShow, Game), the invariants name = title and
series = (type is not "movie") hold after construction; the embedded
records are immutable values (the only later state change, the TVShow
episode cache, does not touch these fields), so the invariants are never
subsequently violated. -/
theorem c4_movie_family_invariants (pd : String → Option JsDate)
    (obj : OmdbGetResponse) (sa : Option (Option Int)) (opts : MovieOpts) :
    (∀ m : Movie, Movie.construct pd obj = .ok m →
       m.name = m.title ∧ m.series = (m.type != some "movie")) ∧
    (∀ e : Episode, Episode.construct pd obj sa = .ok e →
       e.toMovie.name = e.toMovie.title ∧
       e.toMovie.series = (e.toMovie.type != some "movie")) ∧
    (∀ t : TVShow, TVShow.construct pd obj opts = .ok t →
       t.toMovie.name = t.toMovie.title ∧
       t.toMovie.series = (t.toMovie.type != some "movie")) ∧
    (∀ g : Movie, Game.construct pd obj = .ok g →
       g.name = g.title ∧ g.series = (g.type != some "movie")) := by
  have hmov : ∀ m : Movie, Movie.construct pd obj = .ok m →
      m.name = m.title ∧ m.series = (m.type != some "movie") := by
    intro m h
    obtain ⟨yf, _, hm⟩ := movie_construct_ok h
    subst hm
    exact ⟨rfl, rfl⟩
  exact ⟨hmov,
    fun e he => hmov e.toMovie (episode_construct_ok he).1,
    fun t ht => hmov t.toMovie (tvshow_construct_ok ht).1,
    fun g hg => hmov g hg⟩

/-- Witness for C4 at the concrete payload epObj1. -/
theorem c4_movie_family_invariants_witness :
    movie1.name = movie1.title ∧
    movie1.series = (movie1.type != some "movie") :=
  (c4_movie_family_invariants pd0 epObj1 none opts0).1 movie1 rfl

/-- C5: the upstream Year value: one the year-range pattern matches is
retained verbatim in the internal year data and no integer year is
derived; otherwise it is parseInt-ed and construction fails with the
TypeError exactly when that parse fails. -/
theorem c5_year_handling (pd : String → Option JsDate)
    (obj : OmdbGetResponse) (y : String) (hy : obj.Year = some y) :
    (containsYearRange y = true →
       (Movie.construct pd obj).map (fun m => (m.yearData, m.year)) =
         .ok (some y, none)) ∧
    (containsYearRange y = false → jsParseInt y = none →
       Movie.construct pd obj = .error (.typeError "invalid year")) ∧
    (containsYearRange y = false → ∀ v, jsParseInt y = some v →
       (Movie.construct pd obj).map (fun m => (m.yearData, m.year)) =
         .ok (some y, some v)) := by
  refine ⟨?_, ?_, ?_⟩
  · intro hr
    simp [Movie.construct, yearFields, hy, hr, Except.map]
  · intro hr hp
    simp [Movie.construct, yearFields, hy, hr, hp]
  · intro hr v hp
    simp [Movie.construct, yearFields, hy, hr, hp, Except.map]

/-- Witness for C5 at the concrete range payload objSeries. -/
theorem c5_year_handling_witness :
    containsYearRange "2015-2019" = true ∧
    (Movie.construct pd0 objSeries).map (fun m => (m.yearData, m.year)) =
      .ok (some "2015-2019", none) :=
  ⟨by decide, (c5_year_handling pd0 objSeries "2015-2019" rfl).1 (by decide)⟩

/-- C9: Released/DVD date parsing is lenient: on success the domain fields
hold exactly the parsed dates (absent when the parse failed or the key was
missing), and changing the Released/DVD fields never changes whether Movie
construction succeeds. -/
theorem c9_lenient_dates (pd : String → Option JsDate)
    (obj : OmdbGetResponse) :
    (∀ m : Movie, Movie.construct pd obj = .ok m →
       m.released = obj.Released.bind pd ∧ m.dvd = obj.DVD.bind pd) ∧
    (∀ r d : Option String,
       exceptOk (Movie.construct pd { obj with Released := r, DVD := d }) =
         exceptOk (Movie.construct pd obj)) := by
  constructor
  · intro m h
    obtain ⟨yf, _, hm⟩ := movie_construct_ok h
    subst hm
    exact ⟨rfl, rfl⟩
  · intro r d
    unfold Movie.construct
    have hYear : ({ obj with Released := r, DVD := d } : OmdbGetResponse).Year
        = obj.Year := rfl
    rw [hYear]
    cases yearFields obj.Year <;> rfl

/-- Witness for C9: malformed date strings leave the fields absent with
construction still succeeding. -/
theorem c9_lenient_dates_witness :
    movieDates0.released = none ∧ movieDates0.dvd = none ∧
    exceptOk (Movie.construct pd0
        { objDates with Released := some "x", DVD := none }) =
      exceptOk (Movie.construct pd0 objDates) := by
  have h := (c9_lenient_dates pd0 objDates).1 movieDates0 rfl
  exact ⟨h.1, h.2, (c9_lenient_dates pd0 objDates).2 (some "x") none⟩

/-- C2 counterexample: a request supplying BOTH name and id is not
rejected — Client.get proceeds straight to the transport using the name —
refuting the claim that exactly one of name/id is validated and both
present is invalid. -/
theorem c2_both_fields_counterexample :
    Client.get client0 { name := some "a", id := some "b" } none =
      .transport
        [("apikey", "k"), ("plot", "full"), ("r", "json"), ("t", "a")] :=
  rfl

/-- C2 amended: Client.get validates that at least one of name/id is
(truthy-)present: with neither, it returns a rejected promise naming the
missing fields without invoking the transport; with a truthy name — id
present or not — it invokes the transport carrying t=name. -/
theorem c2_get_validation (c : Client) (req : MovieRequest)
    (override : Option MovieOpts) :
    (jsTruthy req.name = false → jsTruthy req.id = false →
       Client.get c req override =
         .rejected (.imdbError "Missing one of req.id or req.name")) ∧
    (jsTruthy req.name = true →
       Client.get c req override =
         .transport (Client.getQuery c req override ++
           [("t", jsStr req.name)])) := by
  constructor
  · intro hn hi
    simp [Client.get, hn, hi]
  · intro hn
    simp [Client.get, hn]

/-- Witness for C2 at concrete requests: the empty request is rejected
pre-transport, a named request reaches the transport. -/
theorem c2_get_validation_witness :
    Client.get client0 {} none =
      .rejected (.imdbError "Missing one of req.id or req.name") ∧
    Client.get client0 { name := some "a" } none =
      .transport (Client.getQuery client0 { name := some "a" } none ++
        [("t", jsStr (some "a"))]) :=
  ⟨(c2_get_validation client0 {} none).1 rfl rfl,
   (c2_get_validation client0 { name := some "a" } none).2 rfl⟩

/-- C3 counterexample: with options lacking an apiKey own property, the
module-level search propagates the Client construction failure as a
synchronous throw, not as a rejected promise — refuting the claim that
both wrappers surface it as a failed asynchronous outcome. -/
theorem c3_search_sync_throw_counterexample :
    moduleSearch { name := "x" } optsNoKey none =
      .thrown (.imdbError "Missing api key in opts") :=
  rfl

/-- C3 amended: for options without an apiKey own property, the
module-level get surfaces the construction failure as a rejected promise
(its try/catch wraps the throw), while the module-level search — which has
no try/catch — propagates it as a synchronous throw. -/
theorem c3_wrapper_error_surfacing (req : MovieRequest)
    (sreq : SearchRequest) (opts : MovieOpts) (pageArg : Option Int)
    (h : opts.apiKeyProp = none) :
    moduleGet req opts = .rejected (.imdbError "Missing api key in opts") ∧
    moduleSearch sreq opts pageArg =
      .thrown (.imdbError "Missing api key in opts") := by
  unfold moduleGet moduleSearch Client.construct
  rw [h]
  exact ⟨rfl, rfl⟩

/-- Witness for C3 at concrete inputs. -/
theorem c3_wrapper_error_surfacing_witness :
    moduleGet {} optsNoKey =
      .rejected (.imdbError "Missing api key in opts") ∧
    moduleSearch { name := "x" } optsNoKey none =
      .thrown (.imdbError "Missing api key in opts") :=
  c3_wrapper_error_surfacing {} { name := "x" } optsNoKey none rfl

/-- A separator-free character list is not split. -/
theorem splitOnChar_not_mem {sep : Char} :
    ∀ {l : List Char}, sep ∉ l → splitOnChar sep l = [l] := by
  intro l
  induction l with
  | nil => intro _; rfl
  | cons c rest ih =>
    intro h
    have hc : ¬ c = sep := by
      intro e
      subst e
      exact h (List.mem_cons_self c rest)
    have hr : sep ∉ rest := fun m => h (List.mem_cons_of_mem c m)
    simp [splitOnChar, hc, ih hr]

/-- Splitting at the first separator occurrence. -/
theorem splitOnChar_append {sep : Char} :
    ∀ {a : List Char} (b : List Char), sep ∉ a →
      splitOnChar sep (a ++ sep :: b) = a :: splitOnChar sep b := by
  intro a
  induction a with
  | nil => intro b _; simp [splitOnChar]
  | cons c rest ih =>
    intro b h
    have hc : ¬ c = sep := by
      intro e
      subst e
      exact h (List.mem_cons_self c rest)
    have hr : sep ∉ rest := fun m => h (List.mem_cons_of_mem c m)
    simp [splitOnChar, hc, ih b hr]

/-- C6 counterexample: the payload Year "2015–2019" (en-dash) is a year
range by the constructor's own pattern and its suffix 2019 is numeric and
non-zero, yet the built TVShow has end_year undefined (the split looks for
a hyphen only), refuting the claim that endYear is the integer after the
separator for every range-valued year string. -/
theorem c6_endash_counterexample :
    containsYearRange "2015–2019" = true ∧
    (TVShow.construct pd0 objEnDash opts0).map
        (fun t => (t.start_year, t.end_year)) =
      .ok (some 2015, none) :=
  ⟨by decide, rfl⟩

/-- C6 amended: for a built TVShow, when the raw year string is a
hyphen-separated range the start year is the integer parse of the part
before the hyphen and the end year the parse of the part after it (absent
when that parse is NaN or zero, so "2015-" gives no end year); when the
raw year string contains no hyphen — as with an en-dash range — the whole
string is parsed for the start year and the end year is always absent. -/
theorem c6_year_span (pd : String → Option JsDate) (opts : MovieOpts)
    (obj : OmdbGetResponse) (t : TVShow)
    (h : TVShow.construct pd obj opts = .ok t) :
    (∀ a b : String, obj.Year = some (a ++ "-" ++ b) →
       '-' ∉ a.data → '-' ∉ b.data →
       t.start_year = jsParseInt a ∧
       t.end_year = (match jsParseInt b with
         | none => none
         | some v => if v = 0 then none else some v)) ∧
    (∀ y : String, obj.Year = some y → '-' ∉ y.data →
       t.start_year = jsParseInt y ∧ t.end_year = none) := by
  obtain ⟨hm, yd, hyd, hstart, hend, -, -⟩ := tvshow_construct_ok h
  have hraw : t.yearData = obj.Year := by
    obtain ⟨yf, hyf, hmv⟩ := movie_construct_ok hm
    have : t.yearData = yf.1 := by rw [hmv]
    rw [this, yearFields_fst hyf]
  constructor
  · intro a b hY ha hb
    have hyd' : yd = a ++ "-" ++ b := by
      rw [hraw, hY] at hyd
      injection hyd with hh
      exact hh.symm
    have hdata : yd.data = a.data ++ '-' :: b.data := by
      rw [hyd']
      simp [String.data_append]
    have hsplit : splitOnChar '-' yd.data = [a.data, b.data] := by
      rw [hdata, splitOnChar_append b.data ha, splitOnChar_not_mem hb]
    constructor
    · rw [hstart, hsplit]
      rfl
    · rw [hend, hsplit]
      rfl
  · intro y hY hy
    have hyd' : yd = y := by
      rw [hraw, hY] at hyd
      injection hyd with hh
      exact hh.symm
    have hsplit : splitOnChar '-' yd.data = [yd.data] := by
      rw [hyd']
      exact splitOnChar_not_mem hy
    constructor
    · rw [hstart, hsplit, hyd']
      rfl
    · rw [hend, hsplit]
      rfl

/-- Witness for C6 at the hyphen range "2015-2019". -/
theorem c6_year_span_witness :
    tvshow1.start_year = some 2015 ∧ tvshow1.end_year = some 2019 := by
  have h := (c6_year_span pd0 opts0 objSeries tvshow1 rfl).1 "2015" "2019"
    rfl (by decide) (by decide)
  exact ⟨h.1.trans (by decide), h.2.trans (by decide)⟩

/-- C8: pagination chaining: Client.search with page omitted defaults the
page to 1; the constructed page stores the original request, the options
used, and the page number; totalresults is the integer parse of the
upstream totalResults string; and next() issues a new search for page + 1
with the identical stored request and options. -/
theorem c8_pagination (opts : MovieOpts) (c : Client)
    (hc : Client.construct opts = .ok c) (req : SearchRequest)
    (res : List OmdbSearchResult) (tstr : String) (page : Int)
    (r : SearchResults)
    (hr : searchThen (.page res (some tstr)) page opts req = .ok r) :
    Client.search c req none none =
      .issued (reqtoqueryobj req (jsStr (apiKeyVal opts)) 1) 1 opts req ∧
    r.req = req ∧ r.opts = opts ∧ r.page = page ∧
    r.totalresults = jsParseInt tstr ∧
    SearchResults.next r =
      .issued (reqtoqueryobj req (jsStr (apiKeyVal opts)) (page + 1))
        (page + 1) opts req := by
  have hcopts : c.opts = opts ∧ opts.apiKeyProp ≠ none := by
    unfold Client.construct at hc
    cases hap : opts.apiKeyProp with
    | none => rw [hap] at hc; exact Except.noConfusion hc
    | some v =>
      rw [hap] at hc
      injection hc with hc
      subst hc
      simp [hap]
  obtain ⟨hco, hap⟩ := hcopts
  have hrr : r = SearchResults.construct res (some tstr) page opts req := by
    simp only [searchThen] at hr
    injection hr with hr
    exact hr.symm
  subst hrr
  refine ⟨?_, rfl, rfl, rfl, rfl, ?_⟩
  · simp [Client.search, mergeOpts, hco]
  · cases hapv : opts.apiKeyProp with
    | none => exact absurd hapv hap
    | some v =>
      simp [SearchResults.next, SearchResults.construct, moduleSearch,
        Client.construct, hapv, Client.search, mergeOpts]

/-- Witness for C8 at a concrete search with totalResults "25". -/
theorem c8_pagination_witness :
    Client.search client0 searchReq0 none none =
      .issued (reqtoqueryobj searchReq0 (jsStr (apiKeyVal opts0)) 1) 1
        opts0 searchReq0 ∧
    searchResults0.req = searchReq0 ∧ searchResults0.opts = opts0 ∧
    searchResults0.page = 1 ∧
    searchResults0.totalresults = jsParseInt "25" ∧
    SearchResults.next searchResults0 =
      .issued (reqtoqueryobj searchReq0 (jsStr (apiKeyVal opts0)) (1 + 1))
        (1 + 1) opts0 searchReq0 :=
  c8_pagination opts0 client0 rfl searchReq0 [] "25" 1 searchResults0 rfl

/-- C1 counterexample: with both season requests answered by a payload
whose Season field is "5", every aggregated episode carries season 5 — the
value parsed from the upstream payload — and not the season number 1 or 2
of its originating request, refuting the claim that the season is fixed to
the requested season and never taken from the payload. -/
theorem c1_season_from_payload_counterexample :
    (TVShow.episodes pd0 tvshow1 fetch5).requestedSeasons = [1, 2] ∧
    (TVShow.episodes pd0 tvshow1 fetch5).result.map
        (fun l => l.map Episode.season) =
      .ok [some 5, some 5] :=
  ⟨rfl, rfl⟩

/-- C1 amended: a successful aggregation is the concatenation, in season
order, of the per-season episode lists, and every episode built from the
payload answering the request for season n carries the integer parse of
THAT PAYLOAD's Season field — the upstream value, which coincides with n
only when the payload agrees with the request. -/
theorem c1_episode_season_amended (pd : String → Option JsDate)
    (s : TVShow) (fetch : Nat → SeasonPayload)
    (hc : s.episodesCache = []) (eps : List Episode)
    (h : (TVShow.episodes pd s fetch).result = .ok eps) :
    eps = ((List.range' 1 (seasonCount s)).map
      (fun n => okEpisodes pd (fetch n))).flatten ∧
    ∀ n ∈ List.range' 1 (seasonCount s), ∀ str objs,
      fetch n = .season str objs →
      ∀ e ∈ okEpisodes pd (fetch n), e.season = jsParseInt str := by
  constructor
  · rw [episodes_uncached hc] at h
    cases hagg : aggregateSeasons pd
        ((List.range' 1 (seasonCount s)).map fetch) with
    | error e => rw [hagg] at h; exact Except.noConfusion h
    | ok eps' =>
      rw [hagg] at h
      injection h with h
      subst h
      have hj := aggregateSeasons_ok_join hagg
      rw [hj, List.map_map]
      rfl
  · intro n _ str objs hfetch e he
    rw [hfetch] at he
    cases hb : buildSeasonEpisodes pd (.season str objs) with
    | error err =>
      rw [okEpisodes, hb] at he
      exact absurd he (List.not_mem_nil e)
    | ok l =>
      rw [okEpisodes, hb] at he
      exact buildSeasonEpisodes_season hb e he

/-- Witness for C1: the concrete aggregated episode carries the payload
season 5. -/
theorem c1_episode_season_amended_witness :
    ep5.season = jsParseInt "5" := by
  have h := (c1_episode_season_amended pd0 tvshow1 fetch5 rfl
    [ep5, ep5] rfl).2
  exact h 1 (by decide) "5" [epObj1] rfl ep5 (by decide)

/-- C7: when the cache is empty and the payload for season k is the first
failing one (error-classified with message msg, every earlier season
building successfully), the whole aggregation settles on an ImdbError
carrying that season's message, no episode list is produced, and the
episode cache is left unchanged. -/
theorem c7_aggregation_failure (pd : String → Option JsDate) (s : TVShow)
    (fetch : Nat → SeasonPayload) (k : Nat) (msg : String)
    (hc : s.episodesCache = []) (hk1 : 1 ≤ k) (hk2 : k ≤ seasonCount s)
    (herr : fetch k = .err msg)
    (hprev : ∀ j, 1 ≤ j → j < k →
      ∃ l, buildSeasonEpisodes pd (fetch j) = .ok l) :
    (TVShow.episodes pd s fetch).result = .error (.imdbError msg) ∧
    (TVShow.episodes pd s fetch).cache = s.episodesCache := by
  have hagg := aggregateSeasons_fetch_err fetch (seasonCount s) 1 k msg
    hk1 (by omega) herr hprev
  rw [episodes_uncached hc, hagg]
  exact ⟨rfl, rfl⟩

/-- Witness for C7: season 2 error-classified with "boom", season 1 fine. -/
theorem c7_aggregation_failure_witness :
    (TVShow.episodes pd0 tvshow1 fetchErr).result =
      .error (.imdbError "boom") ∧
    (TVShow.episodes pd0 tvshow1 fetchErr).cache =
      tvshow1.episodesCache := by
  refine c7_aggregation_failure pd0 tvshow1 fetchErr 2 "boom" rfl
    (by decide) (by decide) rfl ?_
  intro j h1 h2
  have hj : j = 1 := by omega
  subst hj
  exact ⟨[], rfl⟩

/-- C10: the episode cache memoizes only non-empty results: a non-empty
cache is returned with no transport request, while after an aggregation
that produced an empty list the cache stays empty and the next call fans
out a request for every season again. -/
theorem c10_cache_guard (pd : String → Option JsDate) (s : TVShow)
    (fetch : Nat → SeasonPayload) :
    (s.episodesCache ≠ [] →
       TVShow.episodes pd s fetch =
         { result := .ok s.episodesCache, cache := s.episodesCache,
           requestedSeasons := [] }) ∧
    (s.episodesCache = [] → (TVShow.episodes pd s fetch).result = .ok [] →
       (TVShow.episodes pd s fetch).cache = [] ∧
       (TVShow.episodes pd
           { s with episodesCache := (TVShow.episodes pd s fetch).cache }
           fetch).requestedSeasons = List.range' 1 (seasonCount s)) := by
  constructor
  · intro hne
    unfold TVShow.episodes
    rw [if_pos (show s.episodesCache.length ≠ 0 from
      fun h0 => hne (List.length_eq_zero.mp h0))]
  · intro hc hok
    have hcache : (TVShow.episodes pd s fetch).cache = [] := by
      rw [episodes_uncached hc] at hok ⊢
      cases hagg : aggregateSeasons pd
          ((List.range' 1 (seasonCount s)).map fetch) with
      | error e => rw [hagg] at hok; exact Except.noConfusion hok
      | ok eps =>
        rw [hagg] at hok
        injection hok with hok
    refine ⟨hcache, ?_⟩
    rw [hcache]
    exact episodes_requested_of_empty rfl

/-- Witness for C10: a populated cache answers without requests; an empty
aggregation leaves the cache empty and the next call re-requests both
seasons. -/
theorem c10_cache_guard_witness :
    TVShow.episodes pd0 tvshowCached fetch5 =
      { result := .ok tvshowCached.episodesCache,
        cache := tvshowCached.episodesCache, requestedSeasons := [] } ∧
    (TVShow.episodes pd0 tvshow1 fetchEmpty).cache = [] ∧
    (TVShow.episodes pd0
        { tvshow1 with
          episodesCache := (TVShow.episodes pd0 tvshow1 fetchEmpty).cache }
        fetchEmpty).requestedSeasons =
      List.range' 1 (seasonCount tvshow1) := by
  obtain ⟨h1, h2⟩ := (c10_cache_guard pd0 tvshow1 fetchEmpty).2 rfl rfl
  exact ⟨(c10_cache_guard pd0 tvshowCached fetch5).1 (by decide), h1, h2⟩
